import Mathlib

/-!
Shallow embedding of `src/distributed/node.py` (class `Node` / `ServerNode`):
the node lifecycle (`__await__` with its `death_timeout` wrapper), the
service-port resolution and orchestration in `start_services`, the service
registry (`stop_services`, `service_ports`), the bounded log buffer
(`get_logs`), and the dashboard bring-up (`start_http_server`).

External collaborators (the tornado HTTP server, `clean_dashboard_address`,
`get_tcp_server_address`, the connection pool, concrete service classes) are
modelled as oracle parameters: the embedding keeps only what the orchestration
code in `node.py` itself does with their results.
-/

deriving instance DecidableEq for Except

namespace Distributed

/-! ## Log capture (`ServerNode.get_logs`, lines 155-162)

The `DequeHandler` deque holds log records oldest-first.  A record carries its
`levelname` and the string the handler's formatter produces for it; we model
the formatted string directly as a field, since the format template is
external configuration. -/

structure LogRecord where
  levelname : String
  message : String
deriving DecidableEq, Repr

instance : Inhabited LogRecord := ⟨⟨"", ""⟩⟩

/-- `deque_handler.format(msg)`: the formatter output for a record. -/
def handlerFormat (r : LogRecord) : String := r.message

/-- Python list indexing `L[i]` with a possibly negative index
(`L[-i]` is `L[len(L) + (-i)]` for `-i < 0`, and `L[-0] = L[0]`). -/
def pyGet (L : List LogRecord) (i : Int) : LogRecord :=
  if i < 0 then L.getD ((L.length : Int) + i).toNat default
  else L.getD i.toNat default

/-- `ServerNode.get_logs(comm=None, n=None)`:
```
if n is None:
    L = list(deque_handler.deque)
else:
    L = deque_handler.deque
    L = [L[-i] for i in range(min(n, len(L)))]
return [(msg.levelname, deque_handler.format(msg)) for msg in L]
``` -/
def get_logs (deque : List LogRecord) (n : Option Nat) : List (String × String) :=
  let L : List LogRecord :=
    match n with
    | none => deque
    | some n => (List.range (min n deque.length)).map (fun i => pyGet deque (-(i : Int)))
  L.map (fun msg => (msg.levelname, handlerFormat msg))

/-! ## Node lifecycle (`ServerNode.__await__`, lines 171-191)

`__await__` checks `self.status == "running"`; otherwise it creates the start
future and, when `death_timeout` is nonzero, wraps it in `wait_for`, whose
body is
```
try:
    await asyncio.wait_for(future, timeout=timeout)
except Exception:
    await self.close(timeout=1)
    raise TimeoutError("{} failed to start in {} seconds".format(...))
```
The model takes the behaviour of the inner `start()` coroutine and of
`close()` as parameters (they belong to collaborators / subclasses) and
returns a trace recording the outcome, whether `start()` was invoked, and the
`timeout=` argument `close` was invoked with (if it was invoked at all). -/

inductive Status where
  | created
  | starting
  | running
  | closing
  | closed
deriving DecidableEq, Repr

/-- Exceptions visible to the lifecycle wrapper.  `timeoutError` is the
`TimeoutError` imported from `utils` and raised by the wrapper itself;
`asyncioTimeoutError` is what `asyncio.wait_for` raises when the future does
not complete in time; `invalidStateError` is listed by the specification's
error taxonomy; `other` stands for any further exception. -/
inductive Exc where
  | timeoutError (msg : String)
  | asyncioTimeoutError
  | invalidStateError (msg : String)
  | other (msg : String)
deriving DecidableEq, Repr

/-- Behaviour of the inner `start()` future relative to the deadline:
it completes in time, raises an exception, or is still pending when the
deadline elapses. -/
inductive InnerResult where
  | success
  | fails (e : Exc)
  | timesOut
deriving DecidableEq, Repr

/-- Behaviour of `self.close(timeout=1)` when the wrapper invokes it. -/
inductive CloseOutcome where
  | ok
  | raises (e : Exc)
deriving DecidableEq, Repr

inductive AwaitResult where
  | returned
  | raised (e : Exc)
  | pending
deriving DecidableEq, Repr

structure AwaitTrace where
  result : AwaitResult
  startInvoked : Bool
  closeCall : Option Nat
deriving DecidableEq, Repr

/-- The message of the wrapper's `TimeoutError`:
`"{} failed to start in {} seconds".format(type(self).__name__, timeout)`. -/
def timeoutMsg (nodeType : String) (t : Nat) : String :=
  nodeType ++ " failed to start in " ++ toString t ++ " seconds"

/-- `ServerNode.__await__`, with the inner start and close behaviours as
parameters.  `status = running` short-circuits to `gen.sleep(0)`; otherwise
`self.start()` is invoked, guarded by the `wait_for` wrapper exactly when
`death_timeout` is nonzero. -/
def node_await (status : Status) (death_timeout : Nat) (inner : InnerResult)
    (closeOutcome : CloseOutcome) (nodeType : String) : AwaitTrace :=
  if status = Status.running then
    { result := .returned, startInvoked := false, closeCall := none }
  else if death_timeout ≠ 0 then
    match inner with
    | .success => { result := .returned, startInvoked := true, closeCall := none }
    | .fails _ | .timesOut =>
      -- `except Exception:` catches both the inner exception re-raised by
      -- `asyncio.wait_for` and its `TimeoutError`; then `close(timeout=1)`.
      match closeOutcome with
      | .ok =>
        { result := .raised (.timeoutError (timeoutMsg nodeType death_timeout)),
          startInvoked := true, closeCall := some 1 }
      | .raises ce =>
        -- an exception from `close` propagates before `raise TimeoutError`
        { result := .raised ce, startInvoked := true, closeCall := some 1 }
  else
    match inner with
    | .success => { result := .returned, startInvoked := true, closeCall := none }
    | .fails e => { result := .raised e, startInvoked := true, closeCall := none }
    | .timesOut => { result := .pending, startInvoked := true, closeCall := none }

/-! ## Service-port resolution and orchestration
(`ServerNode.start_services`, lines 96-135)

Python values appearing inside a port-spec sequence are strings or integers
(`int(port[1])` accepts both).  A port-spec is an integer, a string split on
`":"`, or a tuple/list of such scalars. -/

inductive PyScalar where
  | s (v : String)
  | i (v : Int)
deriving DecidableEq, Repr

/-- Digit-string accumulator for `pyParseInt`. -/
def parseDigitsGo : List Char → Nat → Option Nat
  | [], acc => some acc
  | c :: rest, acc =>
    if c.isDigit then parseDigitsGo rest (acc * 10 + (c.toNat - Char.toNat '0'))
    else none

/-- Python `int(str)` on a decimal literal: an optional sign followed by a
nonempty digit string; anything else raises `ValueError`. -/
def pyParseInt (v : String) : Option Int :=
  match v.toList with
  | [] => none
  | '-' :: [] => none
  | '-' :: c :: rest => (parseDigitsGo (c :: rest) 0).map (fun n => -(n : Int))
  | cs => (parseDigitsGo cs 0).map (fun n => (n : Int))

/-- Python `int(x)` on a scalar: an int is returned as is, a string is parsed
and raises `ValueError` when it is not a valid integer literal. -/
def pyInt : PyScalar → Except String Int
  | .i v => .ok v
  | .s v =>
    match pyParseInt v with
    | some n => .ok n
    | none => .error v

/-- One step of `pySplit`, over the character list. -/
def pySplitChar (sep : Char) : List Char → List (List Char)
  | [] => [[]]
  | c :: rest =>
    let r := pySplitChar sep rest
    if c = sep then [] :: r
    else
      match r with
      | [] => [[c]]
      | w :: ws => (c :: w) :: ws

/-- Python `str.split(sep)` for a single-character separator:
`"a:b".split(":") = ["a", "b"]`, `"".split(":") = [""]`,
`"a::b".split(":") = ["a", "", "b"]`. -/
def pySplit (v : String) (sep : Char) : List String :=
  (pySplitChar sep v.toList).map (fun cs => String.mk cs)

/-- Repr of a sequence used as the payload of `raise ValueError(port)`. -/
def seqPayload (elems : List PyScalar) : String :=
  String.intercalate ", " (elems.map (fun e => match e with | .s v => v | .i v => toString v))

inductive PortSpec where
  | pint (p : Int)
  | pstr (v : String)
  | pseq (elems : List PyScalar)
deriving DecidableEq, Repr

/-- A service key is a plain name or a `(name, port-spec)` pair. -/
inductive ServiceKey where
  | name (k : String)
  | withPort (k : String) (p : PortSpec)
deriving DecidableEq, Repr

/-- Exceptions raised inside `start_services` before the `try` block: the
`ValueError` of a malformed shape (`raise ValueError(port)`) and the
`ValueError` of a failed `int(...)`. -/
inductive PyErr where
  | valueError (payload : String)
deriving DecidableEq, Repr

/-- `if isinstance(k, tuple): k, port = k  else: port = 0`. -/
def splitKey : ServiceKey → String × PortSpec
  | .name k => (k, .pint 0)
  | .withPort k p => (k, p)

/-- The `isinstance(port, (tuple, list))` branch of `start_services`:
length 2 gives `(listen_ip, port) = (port[0], int(port[1]))`, length 1 gives
`[listen_ip], port = port, 0`, anything else is `raise ValueError(port)`. -/
def resolveSeq (elems : List PyScalar) : Except PyErr (Option PyScalar × Int) :=
  if h2 : elems.length = 2 then
    match pyInt (elems.get ⟨1, by omega⟩) with
    | .ok p => .ok (some (elems.get ⟨0, by omega⟩), p)
    | .error v => .error (.valueError v)
  else if h1 : elems.length = 1 then
    .ok (some (elems.get ⟨0, by omega⟩), 0)
  else
    .error (.valueError (seqPayload elems))

/-- Port resolution for one service: a string is first split on `":"`
(`port = port.split(":")`) and then treated as a sequence; an integer passes
through with no listen ip. -/
def resolvePortSpec : PortSpec → Except PyErr (Option PyScalar × Int)
  | .pstr v => resolveSeq ((pySplit v ':').map PyScalar.s)
  | .pseq elems => resolveSeq elems
  | .pint p => .ok (none, p)

/-- `if default_listen_ip == "0.0.0.0": default_listen_ip = ""  # for IPV6`. -/
def effectiveDefaultIp (default_listen_ip : String) : String :=
  if default_listen_ip = "0.0.0.0" then "" else default_listen_ip

/-- `listen_ip if listen_ip is not None else default_listen_ip`. -/
def bindHost (listen_ip : Option PyScalar) (default_listen_ip : String) : PyScalar :=
  match listen_ip with
  | some h => h
  | none => .s default_listen_ip

/-- Modelled outcome of `v(self, io_loop=self.loop, **kwargs)` followed by
`service.listen((host, port))`: the service either comes up or raises.  The
keyword configuration does not influence anything the orchestration code
observes, so it is not modelled. -/
inductive Descriptor where
  | up
  | raises (msg : String)
deriving DecidableEq, Repr

/-- A live handle as the registry sees it: the address it was asked to listen
on, its `.port`, and whether `.stop()` has been called. -/
structure ServiceHandle where
  host : PyScalar
  port : Int
  stopped : Bool
deriving DecidableEq, Repr

/-- `self.services[k] = service`: insertion-ordered dict assignment. -/
def servicesInsert (k : String) (v : ServiceHandle) :
    List (String × ServiceHandle) → List (String × ServiceHandle)
  | [] => [(k, v)]
  | (k', v') :: rest =>
    if k' = k then (k, v) :: rest else (k', v') :: servicesInsert k v rest

/-- The warning emitted when construction or listening raises:
`"\nCould not launch service '%s' on port %s. " % (k, port) + ...` -/
def serviceWarning (k : String) (port : Int) (msg : String) : String :=
  "Could not launch service " ++ k ++ " on port " ++ toString port ++
    ". Got the following message: " ++ msg

/-- The mutable node state `start_services` touches: the `self.services` dict
and the warnings issued so far. -/
structure NodeState where
  services : List (String × ServiceHandle)
  warnings : List String
deriving DecidableEq, Repr

/-- The loop of `start_services` over `self.service_specs.items()`.  The
`ValueError` of a malformed shape (and of a failed `int`) is raised outside
the `try` block, so it aborts the whole call; an exception from construction
or `listen` is caught and turned into a warning. -/
def start_services_go (default_listen_ip : String) :
    List (ServiceKey × Descriptor) → NodeState → Except PyErr NodeState
  | [], st => .ok st
  | (key, v) :: rest, st =>
    let kp := splitKey key
    match resolvePortSpec kp.2 with
    | .error e => .error e
    | .ok (listen_ip, port) =>
      match v with
      | .up =>
        let service : ServiceHandle :=
          { host := bindHost listen_ip default_listen_ip, port := port, stopped := false }
        start_services_go default_listen_ip rest
          { st with services := servicesInsert kp.1 service st.services }
      | .raises msg =>
        start_services_go default_listen_ip rest
          { st with warnings := st.warnings ++ [serviceWarning kp.1 port msg] }

/-- `ServerNode.start_services(default_listen_ip)`. -/
def start_services (specs : List (ServiceKey × Descriptor))
    (default_listen_ip : String) (st : NodeState) : Except PyErr NodeState :=
  start_services_go (effectiveDefaultIp default_listen_ip) specs st

/-- `ServerNode.stop_services` (lines 137-139):
`for service in self.services.values(): service.stop()` — entries are not
removed from the dict. -/
def stop_services (st : NodeState) : NodeState :=
  { st with services := st.services.map (fun kv => (kv.1, { kv.2 with stopped := true })) }

/-- `ServerNode.service_ports` (lines 141-143):
`{k: v.port for k, v in self.services.items()}`, recomputed on access. -/
def service_ports (st : NodeState) : List (String × Int) :=
  st.services.map (fun kv => (kv.1, kv.2.port))

/-! ## Dashboard bring-up (`ServerNode.start_http_server`, lines 230-246)

The model starts from the resolved `http_address` (produced by the external
`clean_dashboard_address` plus the host inference) and takes the behaviour of
`HTTPServer.listen` as an oracle: `bind host port` is `some actual` when the
listen succeeds and the live socket reports bound port `actual`
(`get_tcp_server_address`), and `none` when the listen raises.
`dashboardRequested` is the truthiness of the `dashboard_address` argument. -/

structure HttpResult where
  boundPort : Int
  changedPort : Bool
  warned : Option (Int × Int)
  registeredDashboard : Bool
deriving DecidableEq, Repr

/-- The bind / fallback / warning portion of `start_http_server`:
```
changed_port = False
try:
    self.http_server.listen(**http_address)
except Exception:
    changed_port = True
    self.http_server.listen(**tlz.merge(http_address, {"port": 0}))
self.http_server.port = get_tcp_server_address(self.http_server)[1]
self.services["dashboard"] = self.http_server
if changed_port and dashboard_address:
    warnings.warn(...)
```
`warned` carries the pair (requested port, actual port) named by the warning. -/
def start_http_server (bind : String → Int → Option Int)
    (host : String) (port : Int) (dashboardRequested : Bool) : Except String HttpResult :=
  match bind host port with
  | some actual =>
    .ok { boundPort := actual, changedPort := false, warned := none,
          registeredDashboard := true }
  | none =>
    match bind host 0 with
    | some actual =>
      .ok { boundPort := actual, changedPort := true,
            warned := if dashboardRequested then some (port, actual) else none,
            registeredDashboard := true }
    | none => .error "bind failed twice"

/-! ## Theorems settling the claims -/

/-- C1: the oldest-first behaviour of `get_logs` with `n = None` holds, but on
a buffer that has received the three records m1, m2, m3 (oldest first),
`get_logs 2` returns the oldest and the newest entry — `[L[-i] for i in
range(min(n, len(L)))]` starts at `i = 0` and `L[-0]` is `L[0]` — not the two
most recent entries newest-first as the claim states. -/
theorem get_logs_failing_input :
    get_logs [⟨"INFO", "m1"⟩, ⟨"INFO", "m2"⟩, ⟨"INFO", "m3"⟩] none =
      [("INFO", "m1"), ("INFO", "m2"), ("INFO", "m3")] ∧
    get_logs [⟨"INFO", "m1"⟩, ⟨"INFO", "m2"⟩, ⟨"INFO", "m3"⟩] (some 2) =
      [("INFO", "m1"), ("INFO", "m3")] ∧
    get_logs [⟨"INFO", "m1"⟩, ⟨"INFO", "m2"⟩, ⟨"INFO", "m3"⟩] (some 2) ≠
      [("INFO", "m3"), ("INFO", "m2")] := by
  decide

/-- C2 counterexample: with a malformed (empty-sequence) port-spec on the
first service and a well-formed second service, `start_services` returns the
`ValueError` to its caller — the error does propagate past `start_services`,
and the remaining service is never attempted (no state survives). -/
theorem start_services_malformed_counterexample :
    start_services [(.withPort "a" (.pseq []), .up), (.name "b", .up)] "127.0.0.1" ⟨[], []⟩ =
      .error (.valueError (seqPayload [])) := by
  decide

/-- C2 amended: a port-spec whose sequence has length other than 1 or 2 makes
`start_services` raise `ValueError` immediately; the error is raised outside
the per-service `try` block, so it propagates to the caller and none of the
remaining declared services is attempted. -/
theorem start_services_malformed_aborts (elems : List PyScalar)
    (h1 : elems.length ≠ 1) (h2 : elems.length ≠ 2)
    (k : String) (d : Descriptor) (rest : List (ServiceKey × Descriptor))
    (dip : String) (st : NodeState) :
    start_services ((ServiceKey.withPort k (.pseq elems), d) :: rest) dip st =
      .error (.valueError (seqPayload elems)) := by
  simp [start_services, start_services_go, splitKey, resolvePortSpec, resolveSeq, h1, h2]

theorem start_services_malformed_aborts_witness :
    start_services [(ServiceKey.withPort "svc" (.pseq [.s "a", .s "b", .s "c"]), .up)]
      "127.0.0.1" ⟨[], []⟩ =
      .error (.valueError (seqPayload [.s "a", .s "b", .s "c"])) :=
  start_services_malformed_aborts [.s "a", .s "b", .s "c"] (by decide) (by decide)
    "svc" .up [] "127.0.0.1" ⟨[], []⟩

/-- C3 counterexample: a node with `death_timeout = 5` whose start times out
and whose `close(timeout=1)` itself raises does not surface the
`StartupTimeoutError`: the close exception propagates instead, so the timeout
error is not raised "regardless of whether the best-effort close succeeds". -/
theorem await_timeout_close_raises_counterexample :
    node_await .created 5 .timesOut (.raises (.other "close failed")) "Worker" =
      { result := .raised (.other "close failed"), startInvoked := true,
        closeCall := some 1 } ∧
    (node_await .created 5 .timesOut (.raises (.other "close failed")) "Worker").result ≠
      .raised (.timeoutError (timeoutMsg "Worker" 5)) := by
  decide

/-- C3 amended: for a non-running node with a nonzero `death_timeout` whose
start does not complete in time, awaiting attempts `close(timeout=1)`; if the
close completes without raising, a `TimeoutError` naming the node type and
the timeout value is raised; if the inner close raises, the close exception
propagates in place of the timeout error. -/
theorem await_timeout_amended (st : Status) (hst : st ≠ .running)
    (dt : Nat) (hdt : dt ≠ 0) (nt : String) :
    (node_await st dt .timesOut .ok nt =
      { result := .raised (.timeoutError (timeoutMsg nt dt)), startInvoked := true,
        closeCall := some 1 }) ∧
    (∀ ce, node_await st dt .timesOut (.raises ce) nt =
      { result := .raised ce, startInvoked := true, closeCall := some 1 }) := by
  constructor
  · simp [node_await, hst, hdt]
  · intro ce
    simp [node_await, hst, hdt]

theorem await_timeout_amended_witness :
    node_await .created 5 .timesOut .ok "Scheduler" =
      { result := .raised (.timeoutError (timeoutMsg "Scheduler" 5)), startInvoked := true,
        closeCall := some 1 } :=
  (await_timeout_amended .created (by decide) 5 (by decide) "Scheduler").1

/-- C4: port resolution follows the §4.2 rules — a string port-spec is split
on ":" and treated as a sequence; a length-2 sequence yields
`(host, port) = (elem0, int(elem1))`; a length-1 sequence yields
`(elem0, 0)`; a bare name key yields port-spec 0; and with
`default_host = "0.0.0.0"` and no explicit host the service is bound with
host `""`. -/
theorem resolve_port_rules :
    (∀ v : String, resolvePortSpec (.pstr v) = resolveSeq ((pySplit v ':').map PyScalar.s)) ∧
    (∀ e0 e1 p, pyInt e1 = .ok p → resolvePortSpec (.pseq [e0, e1]) = .ok (some e0, p)) ∧
    (∀ e0, resolvePortSpec (.pseq [e0]) = .ok (some e0, 0)) ∧
    (∀ k, splitKey (.name k) = (k, .pint 0)) ∧
    (∀ k, start_services [(.name k, .up)] "0.0.0.0" ⟨[], []⟩ =
      .ok ⟨[(k, ⟨.s "", 0, false⟩)], []⟩) := by
  refine ⟨fun v => rfl, ?_, fun e0 => rfl, fun k => rfl, fun k => rfl⟩
  intro e0 e1 p hp
  simp [resolvePortSpec, resolveSeq, hp]

theorem resolve_port_rules_witness :
    resolvePortSpec (.pseq [.s "10.0.0.5", .s "8787"]) = .ok (some (.s "10.0.0.5"), 8787) :=
  resolve_port_rules.2.1 (.s "10.0.0.5") (.s "8787") 8787 (by decide)

/-- C5: a service whose construction or listen raises is converted into a
warning naming its key and attempted port and the loop continues; a service
that comes up is stored in the registry under its key; and in the concrete
two-entry scenario where the first service raises, a live handle is still
produced and stored for the second. -/
theorem start_services_failure_isolated (dip : String) (k : String) (pspec : PortSpec)
    (listen_ip : Option PyScalar) (port : Int) (msg : String)
    (rest : List (ServiceKey × Descriptor)) (st : NodeState)
    (hres : resolvePortSpec pspec = .ok (listen_ip, port)) :
    (start_services_go dip ((ServiceKey.withPort k pspec, .raises msg) :: rest) st =
      start_services_go dip rest
        { st with warnings := st.warnings ++ [serviceWarning k port msg] }) ∧
    (start_services_go dip ((ServiceKey.withPort k pspec, .up) :: rest) st =
      start_services_go dip rest
        { st with services :=
            servicesInsert k ⟨bindHost listen_ip dip, port, false⟩ st.services }) ∧
    (∀ k1 k2 m d2, start_services [(.name k1, .raises m), (.name k2, .up)] d2 ⟨[], []⟩ =
      .ok ⟨[(k2, ⟨.s (effectiveDefaultIp d2), 0, false⟩)], [serviceWarning k1 0 m]⟩) := by
  refine ⟨?_, ?_, fun k1 k2 m d2 => rfl⟩
  · simp [start_services_go, splitKey, hres]
  · simp [start_services_go, splitKey, hres]

theorem start_services_failure_isolated_witness :
    start_services_go "127.0.0.1" [(ServiceKey.withPort "svc" (.pint 8787), .raises "boom")]
      ⟨[], []⟩ = .ok ⟨[], [serviceWarning "svc" 8787 "boom"]⟩ := by
  have h := (start_services_failure_isolated "127.0.0.1" "svc" (.pint 8787) none 8787 "boom"
    [] ⟨[], []⟩ rfl).1
  simpa using h

/-- C6 counterexample: after `stop_services` on a registry holding one handle,
the mapping still contains that (now stopped) handle — the entries are not
removed, so the mapping is not "emptied of the stopped entries". -/
theorem stop_services_counterexample :
    (stop_services ⟨[("x", ⟨.s "h", 1234, false⟩)], []⟩).services =
      [("x", ⟨.s "h", 1234, true⟩)] ∧
    (stop_services ⟨[("x", ⟨.s "h", 1234, false⟩)], []⟩).services ≠ [] := by
  decide

/-- C6 amended: `stop_services` invokes `.stop()` on every registered handle
but removes nothing: the mapping keeps the same keys and the same number of
entries, every surviving entry marked stopped. -/
theorem stop_services_amended (st : NodeState) :
    (stop_services st).services.map Prod.fst = st.services.map Prod.fst ∧
    (stop_services st).services.length = st.services.length ∧
    ∀ kv ∈ (stop_services st).services, kv.2.stopped = true := by
  refine ⟨?_, ?_, ?_⟩
  · simp [stop_services]
  · simp [stop_services]
  · intro kv hkv
    rcases List.mem_map.1 hkv with ⟨x, _, rfl⟩
    rfl

theorem stop_services_amended_witness :
    ((stop_services ⟨[("y", ⟨.s "h", 1, false⟩)], []⟩).services.length = 1) ∧
    ((("y", ⟨.s "h", 1, true⟩) : (String × ServiceHandle)).2.stopped = true) := by
  refine ⟨?_, ?_⟩
  · simpa using (stop_services_amended ⟨[("y", ⟨.s "h", 1, false⟩)], []⟩).2.1
  · exact (stop_services_amended ⟨[("y", ⟨.s "h", 1, false⟩)], []⟩).2.2
      ("y", ⟨.s "h", 1, true⟩) (by decide)

/-- C7: awaiting a node whose status is already `running` short-circuits to
`gen.sleep(0)`: it returns without invoking `start()` (so the service
registry is untouched and the connection pool is not restarted) and without
invoking `close`. -/
theorem await_running_idempotent (dt : Nat) (inner : InnerResult)
    (c : CloseOutcome) (nt : String) :
    node_await .running dt inner c nt =
      { result := .returned, startInvoked := false, closeCall := none } := rfl

/-- C8 counterexample: awaiting a node whose status is `closed` (here with
`death_timeout = 1` and a start that completes) invokes `start()` and returns
normally — no `InvalidStateError` is raised; the same holds for `closing`. -/
theorem await_closed_counterexample :
    node_await .closed 1 .success .ok "Worker" =
      { result := .returned, startInvoked := true, closeCall := none } ∧
    node_await .closing 1 .success .ok "Worker" =
      { result := .returned, startInvoked := true, closeCall := none } := by
  decide

/-- C8 amended: `__await__` checks only for the `running` status; for any
other status — `closing` and `closed` included — it behaves exactly as for a
freshly created node: `start()` is invoked and drives the startup sequence,
with no `InvalidStateError` guard. -/
theorem await_no_state_check (st : Status) (h : st ≠ .running) (dt : Nat)
    (inner : InnerResult) (c : CloseOutcome) (nt : String) :
    node_await st dt inner c nt = node_await .created dt inner c nt ∧
    (node_await st dt inner c nt).startInvoked = true := by
  constructor
  · unfold node_await
    rw [if_neg h]
    rfl
  · by_cases hdt : dt = 0 <;> cases inner <;> cases c <;> simp [node_await, h, hdt]

theorem await_no_state_check_witness :
    node_await .closed 2 .success .ok "Nanny" = node_await .created 2 .success .ok "Nanny" ∧
    (node_await .closed 2 .success .ok "Nanny").startInvoked = true :=
  await_no_state_check .closed (by decide) 2 .success .ok "Nanny"

/-- C9: when the first dashboard bind fails, `start_http_server` retries
exactly once with the port forced to 0 and the same host, records the
fallback, stores the port reported by the live socket, and warns with the
originally requested and the actually used port exactly when the caller had
requested a specific dashboard address; when the first bind succeeds there is
no fallback and no warning; when the retry also fails the error propagates. -/
theorem start_http_server_fallback (bind : String → Int → Option Int)
    (host : String) (port : Int) (req : Bool) (hfail : bind host port = none) :
    (∀ a, bind host 0 = some a →
      start_http_server bind host port req =
        .ok { boundPort := a, changedPort := true,
              warned := if req then some (port, a) else none,
              registeredDashboard := true }) ∧
    (bind host 0 = none →
      start_http_server bind host port req = .error "bind failed twice") ∧
    (∀ h2 p2 a, bind h2 p2 = some a →
      start_http_server bind h2 p2 req =
        .ok { boundPort := a, changedPort := false, warned := none,
              registeredDashboard := true }) := by
  refine ⟨?_, ?_, ?_⟩
  · intro a ha
    simp [start_http_server, hfail, ha]
  · intro h0
    simp [start_http_server, hfail, h0]
  · intro h2 p2 a ha
    simp [start_http_server, ha]

theorem start_http_server_fallback_witness :
    start_http_server (fun _ p => if p = 0 then some 54321 else none) "10.0.0.1" 8787 true =
      .ok { boundPort := 54321, changedPort := true, warned := some (8787, 54321),
            registeredDashboard := true } := by
  have h := (start_http_server_fallback (fun _ p => if p = 0 then some 54321 else none)
    "10.0.0.1" 8787 true (by decide)).1 54321 (by decide)
  simpa using h

/-- C10: for a non-running node with nonzero `death_timeout`, any exception
raised by the inner start coroutine — not only a timeout — is caught by the
`except Exception` of the wrapper, `close(timeout=1)` is attempted, and (the
close completing) the `TimeoutError` naming the node type and the timeout is
raised in place of the original exception: the original cause never appears
in the outcome. -/
theorem await_failure_masked_as_timeout (st : Status) (hst : st ≠ .running)
    (dt : Nat) (hdt : dt ≠ 0) (e : Exc) (nt : String) :
    node_await st dt (.fails e) .ok nt =
      { result := .raised (.timeoutError (timeoutMsg nt dt)), startInvoked := true,
        closeCall := some 1 } := by
  simp [node_await, hst, hdt]

theorem await_failure_masked_as_timeout_witness :
    node_await .created 10 (.fails (.other "pool failed")) .ok "Worker" =
      { result := .raised (.timeoutError (timeoutMsg "Worker" 10)), startInvoked := true,
        closeCall := some 1 } :=
  await_failure_masked_as_timeout .created (by decide) 10 (by decide)
    (.other "pool failed") "Worker"

end Distributed

